import Mathlib

/-!
Shallow embedding of src/fastai/conv_learner.py.

The file models the two components of the module: ConvnetBuilder (backbone
truncation plus fully connected head construction) and ConvLearner (the
orchestrator that owns the precompute flag, the activation cache and the
freeze and unfreeze transitions).  Pure layer construction is embedded as
Lean functions on an inductive type of torch modules; the stateful learner
is embedded as explicit state passing over a record, with an event trace
recording the calls whose order or occurrence the claims speak about.

Helpers that live in other files of the repository (core.py, model.py,
learner.py, dataset.py) are not under src; each such helper is embedded by
a definition whose doc comment starts with "Modelled from the spec:" and is
kept as close to the spec text as possible.
-/

namespace FastaiConv

/-- Torch modules, as far as conv_learner.py builds or inspects them.
Backbone layers coming from the pretrained model zoo are opaque and are
represented by the ext constructor carrying an identifier and the list of
submodules that nn.Module.children would yield. -/
inductive NNModule where
  | batchNorm1d (num_features : Nat)
  | dropout (p : ℚ)
  | linear (in_features out_features : Nat)
  | relu
  | sigmoid
  | logSoftmax
  | adaptiveConcatPool2d
  | flatten
  | seq (ms : List NNModule)
  | ext (id : Nat) (subs : List NNModule)

/-- nn.Module.children: the immediate submodules of a module.  A leaf layer
has no children. -/
def children : NNModule → List NNModule
  | .seq ms => ms
  | .ext _ subs => subs
  | _ => []

/-- Modelled from the spec: cut_model lives in core.py, which is not under
src.  The spec says the builder "truncates the backbone at a
architecture-specific cut point"; truncation is modelled as Python list
slicing of the backbone module's children by the cut index, with a negative
index counted from the end, and with a zero cut keeping the whole backbone
(a zero cut, as recorded for vgg16, must keep the model rather than slice
it to nothing). -/
def cut_model (m : NNModule) (cut : Int) : List NNModule :=
  if cut = 0 then [m]
  else if 0 < cut then (children m).take cut.toNat
  else (children m).take ((children m).length - (-cut).toNat)

/-- Modelled from the spec: split_by_idxs lives in core.py, which is not
under src.  The spec says the layer groups are the backbone children "split
into groups" at the cut index; splitting a list at one index (the only way
conv_learner.py uses the helper, with idxs = [self.lr_cut]) yields the
prefix before the index and the suffix from it on, and further indices are
applied to the suffix. -/
def split_by_idxs (xs : List NNModule) : List Nat → List (List NNModule)
  | [] => [xs]
  | i :: rest => xs.take i :: split_by_idxs (xs.drop i) rest

/-- Identifiers for the model creation functions that conv_learner.py knows
about (resnet18, ..., dn201); other covers every function not in the two
dictionaries. -/
inductive ArchId where
  | resnet18 | resnet34 | resnet50 | resnet101 | resnet152
  | vgg16 | vgg19
  | resnext50 | resnext101 | resnext101_64
  | wrn | inceptionresnet_2 | inception_4
  | dn121 | dn161 | dn169 | dn201
  | other (n : Nat)
  deriving DecidableEq

/-- The model_meta dictionary: cut index and lr_cut per architecture; none
models absence of the key. -/
def model_meta : ArchId → Option (Int × Nat)
  | .resnet18 => some (8, 6)
  | .resnet34 => some (8, 6)
  | .resnet50 => some (8, 6)
  | .resnet101 => some (8, 6)
  | .resnet152 => some (8, 6)
  | .vgg16 => some (0, 22)
  | .vgg19 => some (0, 22)
  | .resnext50 => some (8, 6)
  | .resnext101 => some (8, 6)
  | .resnext101_64 => some (8, 6)
  | .wrn => some (8, 6)
  | .inceptionresnet_2 => some (-2, 9)
  | .inception_4 => some (-1, 9)
  | .dn121 => some (0, 7)
  | .dn161 => some (0, 7)
  | .dn169 => some (0, 7)
  | .dn201 => some (0, 7)
  | .other _ => none

/-- The model_features dictionary. -/
def model_features : ArchId → Option Nat
  | .inception_4 => some 3072
  | .dn121 => some 2048
  | .dn161 => some 4416
  | _ => none

/-- The dropout_percs argument of ConvnetBuilder: either a single number or
a list of numbers ("float or array of float"). -/
inductive DropArg where
  | single (p : ℚ)
  | listOf (ps : List ℚ)

/-- ConvnetBuilder.create_fc_layer: BatchNorm1d, then a Dropout only when
the probability is truthy (nonzero), then Linear, then the activation when
one is given. -/
def create_fc_layer (ni nf : Nat) (p : ℚ) (actn : Option NNModule) : List NNModule :=
  let res := [NNModule.batchNorm1d ni]
  let res := if p ≠ 0 then res ++ [NNModule.dropout p] else res
  let res := res ++ [NNModule.linear ni nf]
  match actn with
  | some a => res ++ [a]
  | none => res

/-- The loop body of ConvnetBuilder.get_fc_layers: one fc block per entry
of xtra_fc, each with a ReLU activation, threading the running input width
ni and the enumeration index i used to index dropout_percs.  An
out-of-range index, which raises IndexError in Python, is modelled by
none; the result also carries the final input width. -/
def fc_hidden_layers (ni : Nat) (xtra_fc : List Nat) (dps : List ℚ) (i : Nat) :
    Option (List NNModule × Nat) :=
  match xtra_fc with
  | [] => some ([], ni)
  | nf :: rest =>
    match dps[i]? with
    | none => none
    | some p =>
      match fc_hidden_layers nf rest dps (i + 1) with
      | none => none
      | some (ls, nl) => some (create_fc_layer ni nf p (some NNModule.relu) ++ ls, nl)

/-- ConvnetBuilder.get_fc_layers: the hidden blocks, then a final block of
width last_layer_size whose dropout probability is dropout_percs[-1] and
whose activation is Sigmoid for multi-label, LogSoftmax otherwise, and
nothing at all for regression. -/
def get_fc_layers (nf0 : Nat) (xtra_fc : List Nat) (dps : List ℚ)
    (is_multi is_reg : Bool) (last_layer_size : Nat) : Option (List NNModule) :=
  match fc_hidden_layers nf0 xtra_fc dps 0 with
  | none => none
  | some (res, ni) =>
    match dps.getLast? with
    | none => none
    | some p =>
      some (res ++ create_fc_layer ni last_layer_size p
        (if is_reg then none
         else if is_multi then some NNModule.sigmoid else some NNModule.logSoftmax))

/-- The fields ConvnetBuilder.__init__ stores on self. -/
structure ConvnetBuilder where
  model_creation_function : ArchId
  last_layer_size : Nat
  is_multi : Bool
  is_reg : Bool
  xtra_cut : Nat
  dropout_percs : List ℚ
  xtra_fc : List Nat
  lr_cut : Nat
  nf : Nat
  top_model : NNModule
  n_fc : Nat
  fc_model : NNModule
  model : NNModule

/-- The final dropout_percs list of ConvnetBuilder.__init__: the default
[0.25, 0.5] when the argument was None, and a single number replicated
len(xtra_fc)+1 times. -/
def builder_dps (dropout_percs0 : Option DropArg) (xtra_fc0 : Option (List Nat)) : List ℚ :=
  match dropout_percs0.getD (DropArg.listOf [1/4, 1/2]) with
  | .listOf ps => ps
  | .single p => List.replicate ((xtra_fc0.getD [512]).length + 1) p

/-- Number of fc head input features: model_features[f] when present,
otherwise num_features(layers) * 2; the num_features result is an input of
the embedding because num_features (core.py) inspects the pretrained
backbone weights. -/
def builder_nf (f : ArchId) (num_features_of_layers : Nat) : Nat :=
  (model_features f).getD (num_features_of_layers * 2)

/-- The cut index ConvnetBuilder.__init__ passes to cut_model: the
model_meta entry (0 when absent) minus xtra_cut. -/
def builder_cut (f : ArchId) (xtra_cut : Nat) : Int :=
  ((model_meta f).getD (0, 0)).1 - xtra_cut

/-- The lr_cut field: the second model_meta component, 0 when absent. -/
def builder_lr_cut (f : ArchId) : Nat :=
  ((model_meta f).getD (0, 0)).2

/-- The layers list after truncation and after appending the adapter:
cut_model result plus one AdaptiveConcatPool2d and one Flatten. -/
def builder_layers (f : ArchId) (backbone : NNModule) (xtra_cut : Nat) : List NNModule :=
  cut_model backbone (builder_cut f xtra_cut) ++
    [NNModule.adaptiveConcatPool2d, NNModule.flatten]

/-- ConvnetBuilder.__init__.  backbone stands for the pretrained module the
model creation function returns, f(True); num_features_of_layers for the
num_features(layers) probe (core.py, external).  The result is none when
get_fc_layers would raise an IndexError on the dropout list. -/
def ConvnetBuilder.make (f : ArchId) (backbone : NNModule) (num_features_of_layers : Nat)
    (last_layer_size : Nat) (is_multi is_reg : Bool)
    (dropout_percs0 : Option DropArg) (xtra_fc0 : Option (List Nat))
    (xtra_cut : Nat) : Option ConvnetBuilder :=
  match get_fc_layers (builder_nf f num_features_of_layers) (xtra_fc0.getD [512])
      (builder_dps dropout_percs0 xtra_fc0) is_multi is_reg last_layer_size with
  | none => none
  | some fc_layers =>
    some {
      model_creation_function := f
      last_layer_size := last_layer_size
      is_multi := is_multi
      is_reg := is_reg
      xtra_cut := xtra_cut
      dropout_percs := builder_dps dropout_percs0 xtra_fc0
      xtra_fc := xtra_fc0.getD [512]
      lr_cut := builder_lr_cut f
      nf := builder_nf f num_features_of_layers
      top_model := NNModule.seq (builder_layers f backbone xtra_cut)
      n_fc := fc_layers.length
      fc_model := NNModule.seq fc_layers
      model := NNModule.seq (builder_layers f backbone xtra_cut ++ fc_layers) }

/-- A layer group as returned by get_layer_groups: either a list of modules
(a slice of the backbone children) or a single module (the fc head). -/
inductive LayerGroup where
  | ofList (ms : List NNModule)
  | ofModule (m : NNModule)

/-- The adjustment at the top of ConvnetBuilder.get_layer_groups: when the
top model has exactly three children, the first child is flattened into its
own children (c = children(c[0]) + c[1:]). -/
def effective_children (m : NNModule) : List NNModule :=
  match children m with
  | [c0, c1, c2] => children c0 ++ [c1, c2]
  | c => c

/-- ConvnetBuilder.get_layer_groups: just the fc head when do_fc, otherwise
the adjusted children split at lr_cut with the fc head appended as the last
group. -/
def ConvnetBuilder.get_layer_groups (b : ConvnetBuilder) (do_fc : Bool) : List LayerGroup :=
  if do_fc then [LayerGroup.ofModule b.fc_model]
  else
    (split_by_idxs (effective_children b.top_model) [b.lr_cut]).map LayerGroup.ofList
      ++ [LayerGroup.ofModule b.fc_model]

/-! ## The ConvLearner state -/

/-- The fields of the dataset bundle (ImageClassifierData, external) that
conv_learner.py reads: task flags, image size, split lengths, and whether a
test dataloader exists (self.data.test_dl truthiness). -/
structure DataBundle where
  is_multi : Bool
  is_reg : Bool
  sz : Nat
  train_len : Nat
  val_len : Nat
  test_len : Nat
  has_test_dl : Bool
  deriving DecidableEq

/-- The loss functions ConvLearner.__init__ can pick. -/
inductive LossFn where
  | binary_cross_entropy
  | nll_loss
  | l1_loss
  deriving DecidableEq

/-- The metrics ConvLearner.__init__ can pick. -/
inductive Metric where
  | accuracy_thresh (th : ℚ)
  | accuracy
  deriving DecidableEq

/-- The three dataset splits the activation cache covers. -/
inductive Split where
  | train | val | test
  deriving DecidableEq

/-- Events recorded in the trace: a freeze_to call with its argument, entry
into save_fc1, reopening the on-disk activation arrays, creating empty
ones, and a predict_to_bcolz run for one split. -/
inductive Event where
  | freeze_to_evt (n : Int)
  | save_fc1_evt
  | open_activations_evt
  | create_empty_bcolz_evt
  | predict_to_bcolz_evt (s : Split)
  deriving DecidableEq

/-- The dataset bundle save_fc1 builds from the cached arrays with
ImageClassifierData.from_arrays (dataset.py, external): the lengths of the
train and validation arrays and, when a test dataloader exists, of the test
array. -/
structure FCData where
  trn_len : Nat
  val_len : Nat
  test_len : Option Nat
  deriving DecidableEq

/-- The mutable state of a ConvLearner.  disk holds the lengths of the
three on-disk activation arrays under this learner's file name template
(none when the first file does not exist); activations the arrays held by
self.activations after get_activations ran; frozen_to the argument of the
last freeze_to call (none before any). -/
structure LState where
  data_ : DataBundle
  models : ConvnetBuilder
  precompute : Bool
  metrics : Option (List Metric)
  crit : LossFn
  frozen_to : Option Int
  disk : Option (Nat × Nat × Nat)
  activations : Option (Nat × Nat × Nat)
  fc_data : Option FCData
  trace : List Event

/-- Append one event to the trace. -/
def LState.log (st : LState) (e : Event) : LState :=
  { st with trace := st.trace ++ [e] }

/-- ConvLearner.get_activations: when the first array file exists and force
is not set, reopen the stored arrays; otherwise create three empty on-disk
arrays (create_empty_bcolz writes them with mode w, so the files exist and
are empty afterwards). -/
def ConvLearner.get_activations (st : LState) (force : Bool) : LState :=
  if st.disk.isSome ∧ force = false then
    let st := st.log Event.open_activations_evt
    { st with activations := st.disk }
  else
    let st := st.log Event.create_empty_bcolz_evt
    { st with activations := some (0, 0, 0), disk := some (0, 0, 0) }

/-- The length update predict_to_bcolz makes on the triple of cached array
lengths: the filled split now holds one row per dataset element. -/
def cache_upd (s : Split) (ds_len : Nat) (lens : Nat × Nat × Nat) : Nat × Nat × Nat :=
  match s with
  | .train => (ds_len, lens.2.1, lens.2.2)
  | .val => (lens.1, ds_len, lens.2.2)
  | .test => (lens.1, lens.2.1, ds_len)

/-- Modelled from the spec: predict_to_bcolz (model.py, not under src) is
the one-line delegation that "caches the backbone's output activations" for
one dataset split into the disk-backed array; its effect is modelled as
leaving the array holding one cached row per element of the split, and the
call is recorded in the trace. -/
def predict_to_bcolz (s : Split) (ds_len : Nat) (st : LState) : LState :=
  let st := st.log (Event.predict_to_bcolz_evt s)
  { st with activations := st.activations.map (cache_upd s ds_len),
            disk := st.disk.map (cache_upd s ds_len) }

/-- The middle of ConvLearner.save_fc1 (lines 150-155 of the source): fill
each split whose array length differs from the dataset length, the test
split additionally only when a test dataloader exists.  At every call site
inside the module (construction, before the precompute flag is set, and
set_data, after unfreeze) the precompute flag is false, so the self.data
property used here resolves to the stored bundle data_, which the embedding
reads directly. -/
def save_fc1_fill (st : LState) : LState :=
  let d := st.data_
  let l1 := st.activations.getD (0, 0, 0)
  let st := if l1.1 ≠ d.train_len then predict_to_bcolz Split.train d.train_len st else st
  let l2 := st.activations.getD (0, 0, 0)
  let st := if l2.2.1 ≠ d.val_len then predict_to_bcolz Split.val d.val_len st else st
  let l3 := st.activations.getD (0, 0, 0)
  if d.has_test_dl = true ∧ l3.2.2 ≠ d.test_len then
    (if d.has_test_dl = true then predict_to_bcolz Split.test d.test_len st else st)
  else st

/-- ConvLearner.save_fc1: fetch or create the activation arrays, fill the
stale splits (save_fc1_fill), then build fc_data from the arrays. -/
def ConvLearner.save_fc1 (st0 : LState) : LState :=
  let st := ConvLearner.get_activations (st0.log Event.save_fc1_evt) false
  let st := save_fc1_fill st
  let l4 := st.activations.getD (0, 0, 0)
  let fd : FCData := {
    trn_len := l4.1
    val_len := l4.2.1
    test_len := if st.data_.has_test_dl = true then some l4.2.2 else none }
  { st with fc_data := some fd }

/-- Modelled from the spec: Learner.freeze_to (learner.py, not under src)
realises the freezing the spec describes ("freezes all but the head",
"fully unfrozen"): it records from which group index on the layer groups
are trainable, a negative index counting from the end of the group list.
The embedding stores the argument and logs the call. -/
def ConvLearner.freeze_to (n : Int) (st : LState) : LState :=
  { st with frozen_to := some n, trace := st.trace ++ [Event.freeze_to_evt n] }

/-- ConvLearner.freeze: freeze_to(-1). -/
def ConvLearner.freeze (st : LState) : LState :=
  ConvLearner.freeze_to (-1) st

/-- ConvLearner.unfreeze: freeze_to(0), then precompute := False. -/
def ConvLearner.unfreeze (st : LState) : LState :=
  let st := ConvLearner.freeze_to 0 st
  { st with precompute := false }

/-- Whether layer group i out of ngroups is trainable under the recorded
freeze_to argument (every group is trainable before any freeze_to call):
groups from the resolved index on are trainable, earlier ones frozen. -/
def group_trainable (ngroups : Nat) (frozen : Option Int) (i : Nat) : Bool :=
  match frozen with
  | none => true
  | some n =>
    let k := if 0 ≤ n then n.toNat else ngroups - (-n).toNat
    decide (k ≤ i)

/-- The ConvLearner.model property: the fc head alone under precompute, the
full model otherwise. -/
def ConvLearner.model (st : LState) : NNModule :=
  if st.precompute then st.models.fc_model else st.models.model

/-- What the ConvLearner.data property yields: the cached-activation
dataset or the original bundle. -/
inductive DataView where
  | fcView (fd : FCData)
  | origView (d : DataBundle)

/-- The ConvLearner.data property: fc_data under precompute (none models
the AttributeError when fc_data was never computed), the stored bundle
otherwise. -/
def ConvLearner.dataProp (st : LState) : Option DataView :=
  if st.precompute then st.fc_data.map DataView.fcView
  else some (DataView.origView st.data_)

/-- ConvLearner.get_layer_groups: delegate to the builder with the
precompute flag as do_fc. -/
def ConvLearner.layer_groups (st : LState) : List LayerGroup :=
  st.models.get_layer_groups st.precompute

/-- Number of layer groups of the learner in its current mode. -/
def ConvLearner.num_groups (st : LState) : Nat :=
  (ConvLearner.layer_groups st).length

/-- Whether layer group i of the learner is currently trainable. -/
def ConvLearner.trainable (st : LState) (i : Nat) : Bool :=
  group_trainable (ConvLearner.num_groups st) st.frozen_to i

/-- Modelled from the spec: Learner.summary (learner.py, not under src)
inspects the learner's current model; its result is modelled as the module
it would inspect, and it reads the state without changing it. -/
def learner_summary (st : LState) : NNModule :=
  ConvLearner.model st

/-- ConvLearner.summary: stash the precompute flag, clear it, take the
superclass summary, restore the flag, return the summary. -/
def ConvLearner.summary (st : LState) : NNModule × LState :=
  let temp := st.precompute
  let st1 := { st with precompute := false }
  let res := learner_summary st1
  (res, { st1 with precompute := temp })

/-- The state right after line 87 of ConvLearner.__init__: the Learner
base constructor (learner.py, not under src) has stored the dataset bundle,
the builder and the metrics keyword, self.precompute is False, and the
criterion is binary_cross_entropy for multi-label data and nll_loss
otherwise; disk0 is the pre-existing state of this learner's three
activation files. -/
def init_base (data : DataBundle) (models : ConvnetBuilder)
    (metrics0 : Option (List Metric)) (disk0 : Option (Nat × Nat × Nat)) : LState :=
  { data_ := data
    models := models
    precompute := false
    metrics := metrics0
    crit := if data.is_multi then LossFn.binary_cross_entropy else LossFn.nll_loss
    frozen_to := none
    disk := disk0
    activations := none
    fc_data := none
    trace := [] }

/-- Lines 88-90 of ConvLearner.__init__: regression overrides the
criterion with l1_loss, otherwise missing metrics get the task-specific
default. -/
def init_crit_metrics (data : DataBundle) (st : LState) : LState :=
  if data.is_reg then { st with crit := LossFn.l1_loss }
  else if st.metrics = none then
    let ms := [if data.is_multi then Metric.accuracy_thresh (1/2) else Metric.accuracy]
    { st with metrics := some ms }
  else st

/-- ConvLearner.__init__: base state, criterion and metrics choice, then
save_fc1 when precompute was requested, then freeze, and finally the
precompute flag is set. -/
def ConvLearner.init (data : DataBundle) (models : ConvnetBuilder) (precompute : Bool)
    (metrics0 : Option (List Metric)) (disk0 : Option (Nat × Nat × Nat)) : LState :=
  let st := init_crit_metrics data (init_base data models metrics0 disk0)
  let st := if precompute then ConvLearner.save_fc1 st else st
  let st := ConvLearner.freeze st
  { st with precompute := precompute }

/-- ConvLearner.set_data: store the new bundle; under precompute unfreeze,
recompute the cache, freeze and set the flag, otherwise just freeze. -/
def ConvLearner.set_data (d : DataBundle) (precompute : Bool) (st : LState) : LState :=
  let st := { st with data_ := d }
  if precompute then
    let st := ConvLearner.unfreeze st
    let st := ConvLearner.save_fc1 st
    let st := ConvLearner.freeze st
    { st with precompute := true }
  else ConvLearner.freeze st

/-- The events a transition from st to st2 appended to the trace. -/
def new_events (st st2 : LState) : List Event :=
  st2.trace.drop st.trace.length

/-- Whether some occurrence of e is in the list (self-contained so that the
trace claims evaluate by decide). -/
def contains_ev (e : Event) : List Event → Bool
  | [] => false
  | x :: rest => decide (x = e) || contains_ev e rest

/-- Whether some occurrence of a strictly precedes some occurrence of b in
the trace. -/
def occurs_before (a b : Event) : List Event → Bool
  | [] => false
  | x :: rest => (decide (x = a) && contains_ev b rest) || occurs_before a b rest

/-- The predict_to_bcolz events one save_fc1 run emits when the arrays held
lengths L0 after get_activations and the learner's data is d: one per
split whose stored length differs (the test split also needing a test
dataloader). -/
def fill_events (L0 : Nat × Nat × Nat) (d : DataBundle) : List Event :=
  (if L0.1 ≠ d.train_len then [Event.predict_to_bcolz_evt Split.train] else []) ++
  (if L0.2.1 ≠ d.val_len then [Event.predict_to_bcolz_evt Split.val] else []) ++
  (if d.has_test_dl = true ∧ L0.2.2 ≠ d.test_len then
    [Event.predict_to_bcolz_evt Split.test] else [])

/-- The array lengths save_fc1 sees right after its get_activations step
when run on st: the stored lengths its staleness checks compare against. -/
def stored_lens0 (st : LState) : Nat × Nat × Nat :=
  (ConvLearner.get_activations (st.log Event.save_fc1_evt) false).activations.getD (0, 0, 0)

/-- Project one split's entry out of an array-length triple. -/
def split_stored (s : Split) (lens : Nat × Nat × Nat) : Nat :=
  match s with
  | .train => lens.1
  | .val => lens.2.1
  | .test => lens.2.2

/-- The dataset length of one split. -/
def split_ds_len (s : Split) (d : DataBundle) : Nat :=
  match s with
  | .train => d.train_len
  | .val => d.val_len
  | .test => d.test_len

/-! ## Concrete example values used by the witnesses -/

/-- A small opaque backbone with two children. -/
def exBackbone : NNModule := NNModule.ext 0 [NNModule.ext 1 [], NNModule.ext 2 []]

/-- A builder over an unknown architecture, defaults everywhere. -/
def exBOpt : Option ConvnetBuilder :=
  ConvnetBuilder.make (ArchId.other 0) exBackbone 4 3 false false none none 0

def exB : ConvnetBuilder := exBOpt.get (by decide)

/-- A builder whose dropout_percs argument is the single number 1/4. -/
def exBOpt2 : Option ConvnetBuilder :=
  ConvnetBuilder.make (ArchId.other 1) (NNModule.ext 0 []) 4 3 false false
    (some (DropArg.single (1/4))) none 0

def exB2 : ConvnetBuilder := exBOpt2.get (by decide)

/-- A builder over resnet18 (a model_meta architecture). -/
def exBOpt3 : Option ConvnetBuilder :=
  ConvnetBuilder.make ArchId.resnet18 exBackbone 4 5 false false none none 0

def exB3 : ConvnetBuilder := exBOpt3.get (by decide)

/-- A small single-label classification dataset bundle without test set. -/
def exData : DataBundle :=
  { is_multi := false
    is_reg := false
    sz := 224
    train_len := 1
    val_len := 1
    test_len := 0
    has_test_dl := false }

/-- A learner constructed with precompute on and no pre-existing files. -/
def exState : LState := ConvLearner.init exData exB true none none

/-- A learner constructed with precompute off over stale on-disk arrays. -/
def exState2 : LState := ConvLearner.init exData exB false none (some (5, 5, 0))

/-! ## Helper lemmas about the builder -/

lemma create_fc_layer_ne_nil (ni nf : Nat) (p : ℚ) (actn : Option NNModule) :
    create_fc_layer ni nf p actn ≠ [] := by
  unfold create_fc_layer
  cases actn <;> split_ifs <;> simp

lemma create_fc_layer_getLast_some (ni nf : Nat) (p : ℚ) (a : NNModule) :
    (create_fc_layer ni nf p (some a)).getLast? = some a := by
  unfold create_fc_layer
  split_ifs <;> simp [List.getLast?_concat]

lemma create_fc_layer_getLast_none (ni nf : Nat) (p : ℚ) :
    (create_fc_layer ni nf p none).getLast? = some (NNModule.linear ni nf) := by
  unfold create_fc_layer
  split_ifs <;> simp [List.getLast?_concat]

lemma mem_create_fc_layer (ni nf : Nat) (p : ℚ) (actn : Option NNModule) (x : NNModule) :
    x ∈ create_fc_layer ni nf p actn ↔
      x = NNModule.batchNorm1d ni ∨ (p ≠ 0 ∧ x = NNModule.dropout p) ∨
      x = NNModule.linear ni nf ∨ (∃ a, actn = some a ∧ x = a) := by
  unfold create_fc_layer
  cases actn <;> split_ifs <;> simp <;> tauto

/-- Unpacking a successful ConvnetBuilder.make into its stored fields. -/
lemma ConvnetBuilder.make_eq_some {f : ArchId} {backbone : NNModule} {nfl lls : Nat}
    {m r : Bool} {dps0 : Option DropArg} {xfc0 : Option (List Nat)} {xc : Nat}
    {b : ConvnetBuilder}
    (h : ConvnetBuilder.make f backbone nfl lls m r dps0 xfc0 xc = some b) :
    ∃ fc_layers,
      get_fc_layers (builder_nf f nfl) (xfc0.getD [512]) (builder_dps dps0 xfc0) m r lls
        = some fc_layers ∧
      b.fc_model = NNModule.seq fc_layers ∧
      b.dropout_percs = builder_dps dps0 xfc0 ∧
      b.xtra_fc = xfc0.getD [512] ∧
      b.lr_cut = builder_lr_cut f ∧
      b.top_model = NNModule.seq (builder_layers f backbone xc) ∧
      b.last_layer_size = lls ∧
      b.is_multi = m ∧
      b.is_reg = r ∧
      b.nf = builder_nf f nfl := by
  unfold ConvnetBuilder.make at h
  split at h
  · exact absurd h (by simp)
  · next fc heq =>
    rw [Option.some.injEq] at h
    subst h
    exact ⟨fc, heq, rfl, rfl, rfl, rfl, rfl, rfl, rfl, rfl, rfl⟩

/-- Unpacking a successful get_fc_layers into the hidden blocks and the
final block. -/
lemma get_fc_layers_eq_some {nf0 : Nat} {xfc : List Nat} {dps : List ℚ} {m r : Bool}
    {lls : Nat} {res : List NNModule}
    (h : get_fc_layers nf0 xfc dps m r lls = some res) :
    ∃ hid ni p, fc_hidden_layers nf0 xfc dps 0 = some (hid, ni) ∧
      dps.getLast? = some p ∧
      res = hid ++ create_fc_layer ni lls p
        (if r then none
         else if m then some NNModule.sigmoid else some NNModule.logSoftmax) := by
  unfold get_fc_layers at h
  split at h
  · exact absurd h (by simp)
  · next hid ni heq =>
    split at h
    · exact absurd h (by simp)
    · next p hlast =>
      rw [Option.some.injEq] at h
      exact ⟨hid, ni, p, heq, hlast, h.symm⟩

/-- Any dropout probability occurring in the hidden blocks comes from the
dropout_percs list. -/
lemma fc_hidden_layers_dropout {dps : List ℚ} :
    ∀ (xfc : List Nat) (ni i : Nat) (hid : List NNModule) (nl : Nat) (q : ℚ),
      fc_hidden_layers ni xfc dps i = some (hid, nl) →
      NNModule.dropout q ∈ hid → ∃ j : Nat, dps[j]? = some q := by
  intro xfc
  induction xfc with
  | nil =>
    intro ni i hid nl q h hm
    unfold fc_hidden_layers at h
    rw [Option.some.injEq] at h
    cases h
    simp at hm
  | cons nf rest ih =>
    intro ni i hid nl q h hm
    unfold fc_hidden_layers at h
    split at h
    · exact absurd h (by simp)
    · next p hdp =>
      split at h
      · exact absurd h (by simp)
      · next ls nl2 hrec =>
        rw [Option.some.injEq] at h
        cases h
        rcases List.mem_append.mp hm with hc | hc
        · rcases (mem_create_fc_layer _ _ _ _ _).mp hc with h1 | ⟨_, h1⟩ | h1 | ⟨a, ha, h1⟩
          · exact absurd h1 (by simp)
          · exact ⟨i, (NNModule.dropout.inj h1) ▸ hdp⟩
          · exact absurd h1 (by simp)
          · rw [Option.some.injEq] at ha
            rw [← ha] at h1
            exact absurd h1 (by simp)
        · exact ih nf (i + 1) ls _ q hrec hc

/-- Any dropout probability occurring in the full fc head comes from the
dropout_percs list or from its last element. -/
lemma get_fc_layers_dropout {nf0 : Nat} {xfc : List Nat} {dps : List ℚ} {m r : Bool}
    {lls : Nat} {res : List NNModule} {q : ℚ}
    (h : get_fc_layers nf0 xfc dps m r lls = some res)
    (hm : NNModule.dropout q ∈ res) :
    (∃ j : Nat, dps[j]? = some q) ∨ dps.getLast? = some q := by
  obtain ⟨hid, ni, p, hh, hlast, hres⟩ := get_fc_layers_eq_some h
  rw [hres] at hm
  rcases List.mem_append.mp hm with hc | hc
  · exact Or.inl (fc_hidden_layers_dropout xfc nf0 0 hid ni q hh hc)
  · rcases (mem_create_fc_layer _ _ _ _ _).mp hc with h1 | ⟨_, h1⟩ | h1 | ⟨a, ha, h1⟩
    · exact absurd h1 (by simp)
    · exact Or.inr ((NNModule.dropout.inj h1) ▸ hlast)
    · exact absurd h1 (by simp)
    · refine absurd h1 ?_
      split at ha
      · exact absurd ha (by simp)
      · split at ha <;> · rw [Option.some.injEq] at ha; rw [← ha]; simp

lemma getLast?_replicate_succ {α : Type*} (k : Nat) (a : α) :
    (List.replicate (k + 1) a).getLast? = some a := by
  induction k with
  | zero => rfl
  | succ n ih =>
    rw [List.replicate_succ, List.replicate_succ, List.getLast?_cons_cons,
      ← List.replicate_succ]
    exact ih

/-! ## Claims about the builder -/

/-- C5: the head's final activation is chosen by task type: Sigmoid for
multi-label, LogSoftmax for single-label classification, and for every
regression builder (including regression combined with multi-label) no
activation is appended, so the head ends in its Linear layer. -/
theorem C5_final_activation_by_task (f : ArchId) (backbone : NNModule) (nfl lls : Nat)
    (m r : Bool) (dps0 : Option DropArg) (xfc0 : Option (List Nat)) (xc : Nat)
    (b : ConvnetBuilder)
    (h : ConvnetBuilder.make f backbone nfl lls m r dps0 xfc0 xc = some b) :
    (r = true → ∃ ni, (children b.fc_model).getLast? = some (NNModule.linear ni lls)) ∧
    (r = false → m = true → (children b.fc_model).getLast? = some NNModule.sigmoid) ∧
    (r = false → m = false → (children b.fc_model).getLast? = some NNModule.logSoftmax) := by
  obtain ⟨fc, heq, hfc, -, -, -, -, -, -, -⟩ := ConvnetBuilder.make_eq_some h
  obtain ⟨hid, ni, p, -, -, hres⟩ := get_fc_layers_eq_some heq
  have hch : children b.fc_model = fc := by rw [hfc]; rfl
  have hlast : (children b.fc_model).getLast? =
      (create_fc_layer ni lls p
        (if r then none
         else if m then some NNModule.sigmoid else some NNModule.logSoftmax)).getLast? := by
    rw [hch, hres]
    exact List.getLast?_append_of_ne_nil hid (create_fc_layer_ne_nil _ _ _ _)
  refine ⟨?_, ?_, ?_⟩
  · intro hr
    simp only [hr, if_true] at hlast
    exact ⟨ni, hlast.trans (create_fc_layer_getLast_none ni lls p)⟩
  · intro hr hm
    simp only [hr, hm, Bool.false_eq_true, if_false, if_true] at hlast
    exact hlast.trans (create_fc_layer_getLast_some ni lls p _)
  · intro hr hm
    simp only [hr, hm, Bool.false_eq_true, if_false] at hlast
    exact hlast.trans (create_fc_layer_getLast_some ni lls p _)

/-- C7: the backbone is cut at model_meta[f][0] minus xtra_cut with lr_cut
= model_meta[f][1] when f is a known architecture, and at -xtra_cut with
lr_cut = 0 otherwise; in both cases exactly one AdaptiveConcatPool2d and
one Flatten are appended after the truncated layers to form top_model. -/
theorem C7_cut_point_and_adapter (f : ArchId) (backbone : NNModule) (nfl lls : Nat)
    (m r : Bool) (dps0 : Option DropArg) (xfc0 : Option (List Nat)) (xc : Nat)
    (b : ConvnetBuilder)
    (h : ConvnetBuilder.make f backbone nfl lls m r dps0 xfc0 xc = some b) :
    (∀ c l, model_meta f = some (c, l) →
      b.lr_cut = l ∧
      b.top_model = NNModule.seq (cut_model backbone (c - (xc : Int)) ++
        [NNModule.adaptiveConcatPool2d, NNModule.flatten])) ∧
    (model_meta f = none →
      b.lr_cut = 0 ∧
      b.top_model = NNModule.seq (cut_model backbone (-(xc : Int)) ++
        [NNModule.adaptiveConcatPool2d, NNModule.flatten])) := by
  obtain ⟨fc, -, -, -, -, hlr, htop, -, -, -⟩ := ConvnetBuilder.make_eq_some h
  constructor
  · intro c l hmeta
    constructor
    · rw [hlr]; unfold builder_lr_cut; rw [hmeta]; rfl
    · rw [htop]; unfold builder_layers builder_cut; rw [hmeta]; rfl
  · intro hmeta
    constructor
    · rw [hlr]; unfold builder_lr_cut; rw [hmeta]; rfl
    · rw [htop]; unfold builder_layers builder_cut; rw [hmeta]
      norm_num

/-- C8: with do_fc false, get_layer_groups is the (adjusted) children of
the truncated backbone split at lr_cut followed by the fc head as the last
group; the result is never empty and its last element is the head. -/
theorem C8_layer_groups_shape (b : ConvnetBuilder) :
    ConvnetBuilder.get_layer_groups b false =
      (split_by_idxs (effective_children b.top_model) [b.lr_cut]).map LayerGroup.ofList
        ++ [LayerGroup.ofModule b.fc_model] ∧
    ConvnetBuilder.get_layer_groups b false ≠ [] ∧
    (ConvnetBuilder.get_layer_groups b false).getLast? =
      some (LayerGroup.ofModule b.fc_model) := by
  refine ⟨rfl, ?_, ?_⟩
  · unfold ConvnetBuilder.get_layer_groups
    simp
  · unfold ConvnetBuilder.get_layer_groups
    simp [List.getLast?_concat]

/-- C10: a single-number dropout_percs argument is replicated into a list
of length len(xtra_fc)+1, every Dropout layer of the head carries that same
probability, and each fc block always holds its BatchNorm1d and Linear
layers while holding a Dropout layer exactly when its probability is
nonzero (for the activations the module actually passes). -/
theorem C10_dropout_replication (f : ArchId) (backbone : NNModule) (nfl lls : Nat)
    (m r : Bool) (p : ℚ) (xfc0 : Option (List Nat)) (xc : Nat) (b : ConvnetBuilder)
    (h : ConvnetBuilder.make f backbone nfl lls m r (some (DropArg.single p)) xfc0 xc
      = some b) :
    b.dropout_percs = List.replicate (b.xtra_fc.length + 1) p ∧
    (∀ q : ℚ, NNModule.dropout q ∈ children b.fc_model → q = p) ∧
    (∀ (ni2 nf2 : Nat) (pp : ℚ) (actn : Option NNModule),
      (actn = none ∨ actn = some NNModule.relu ∨ actn = some NNModule.sigmoid ∨
        actn = some NNModule.logSoftmax) →
      NNModule.batchNorm1d ni2 ∈ create_fc_layer ni2 nf2 pp actn ∧
      NNModule.linear ni2 nf2 ∈ create_fc_layer ni2 nf2 pp actn ∧
      (NNModule.dropout pp ∈ create_fc_layer ni2 nf2 pp actn ↔ pp ≠ 0)) := by
  obtain ⟨fc, heq, hfc, hdps, hxfc, -, -, -, -, -⟩ := ConvnetBuilder.make_eq_some h
  have hrep : builder_dps (some (DropArg.single p)) xfc0 =
      List.replicate ((xfc0.getD [512]).length + 1) p := rfl
  refine ⟨by rw [hdps, hxfc, hrep], ?_, ?_⟩
  · intro q hm
    have hch : children b.fc_model = fc := by rw [hfc]; rfl
    rw [hch] at hm
    rw [hrep] at heq
    rcases get_fc_layers_dropout heq hm with ⟨j, hj⟩ | hlast
    · rw [List.getElem?_replicate] at hj
      split at hj
      · rw [Option.some.injEq] at hj; exact hj.symm
      · exact absurd hj (by simp)
    · rw [getLast?_replicate_succ] at hlast
      rw [Option.some.injEq] at hlast
      exact hlast.symm
  · intro ni2 nf2 pp actn hactn
    refine ⟨(mem_create_fc_layer _ _ _ _ _).mpr (Or.inl rfl),
      (mem_create_fc_layer _ _ _ _ _).mpr (Or.inr (Or.inr (Or.inl rfl))), ?_, ?_⟩
    · intro hm
      rcases (mem_create_fc_layer _ _ _ _ _).mp hm with h1 | ⟨hp, -⟩ | h1 | ⟨a, ha, h1⟩
      · exact absurd h1 (by simp)
      · exact hp
      · exact absurd h1 (by simp)
      · rcases hactn with h2 | h2 | h2 | h2 <;> rw [h2] at ha
        · exact absurd ha (by simp)
        · rw [Option.some.injEq] at ha; rw [← ha] at h1; exact absurd h1 (by simp)
        · rw [Option.some.injEq] at ha; rw [← ha] at h1; exact absurd h1 (by simp)
        · rw [Option.some.injEq] at ha; rw [← ha] at h1; exact absurd h1 (by simp)
    · intro hpp
      exact (mem_create_fc_layer _ _ _ _ _).mpr (Or.inr (Or.inl ⟨hpp, rfl⟩))

/-! ## Helper lemmas about the learner state -/

lemma get_activations_open (st : LState) (l : Nat × Nat × Nat) (h : st.disk = some l) :
    ConvLearner.get_activations st false =
      { st with activations := some l,
                trace := st.trace ++ [Event.open_activations_evt] } := by
  unfold ConvLearner.get_activations LState.log
  rw [if_pos ⟨by simp [h], rfl⟩, h]

lemma get_activations_create (st : LState) (h : st.disk = none) :
    ConvLearner.get_activations st false =
      { st with activations := some (0, 0, 0), disk := some (0, 0, 0),
                trace := st.trace ++ [Event.create_empty_bcolz_evt] } := by
  unfold ConvLearner.get_activations LState.log
  rw [if_neg (by simp [h])]

lemma predict_to_bcolz_eq (s : Split) (ds_len : Nat) (st : LState) :
    predict_to_bcolz s ds_len st =
      { st with activations := st.activations.map (cache_upd s ds_len),
                disk := st.disk.map (cache_upd s ds_len),
                trace := st.trace ++ [Event.predict_to_bcolz_evt s] } := rfl

/-- The effect of the fill phase of save_fc1 on a state whose in-memory and
on-disk arrays agree and hold lengths L0. -/
lemma save_fc1_fill_spec (st : LState) (L0 : Nat × Nat × Nat)
    (hact : st.activations = some L0) (hdisk : st.disk = some L0) :
    save_fc1_fill st =
      { st with
          activations := some (st.data_.train_len, st.data_.val_len,
            if st.data_.has_test_dl = true then st.data_.test_len else L0.2.2),
          disk := some (st.data_.train_len, st.data_.val_len,
            if st.data_.has_test_dl = true then st.data_.test_len else L0.2.2),
          trace := st.trace ++ fill_events L0 st.data_ } := by
  obtain ⟨d, mo, pc, me, cr, fz, dk, ac, fcd, tr⟩ := st
  obtain ⟨t1, t2, t3⟩ := L0
  simp only at hact hdisk
  subst hact hdisk
  unfold save_fc1_fill fill_events
  by_cases hc1 : t1 ≠ d.train_len <;>
    by_cases hc2 : t2 ≠ d.val_len <;>
      by_cases hht : d.has_test_dl = true <;>
        by_cases hc3 : t3 ≠ d.test_len <;>
          push_neg at hc1 hc2 hc3 <;>
            simp_all [predict_to_bcolz_eq, cache_upd]

/-- The overall effect of one save_fc1 run: the trace grows by the
save_fc1 entry, one open-or-create event, and the fill events; afterwards
the in-memory and on-disk arrays agree, the train and validation entries
match the dataset, and the test entry matches it whenever a test
dataloader exists; every other field is untouched. -/
lemma save_fc1_spec (st0 : LState) :
    ∃ (L0 : Nat × Nat × Nat) (g : Event),
      (g = Event.open_activations_evt ∨ g = Event.create_empty_bcolz_evt) ∧
      stored_lens0 st0 = L0 ∧
      (∀ lens, st0.disk = some lens → L0 = lens ∧ g = Event.open_activations_evt) ∧
      (ConvLearner.save_fc1 st0).trace =
        st0.trace ++ [Event.save_fc1_evt, g] ++ fill_events L0 st0.data_ ∧
      (ConvLearner.save_fc1 st0).activations =
        some (st0.data_.train_len, st0.data_.val_len,
          if st0.data_.has_test_dl = true then st0.data_.test_len else L0.2.2) ∧
      (ConvLearner.save_fc1 st0).disk = (ConvLearner.save_fc1 st0).activations ∧
      (ConvLearner.save_fc1 st0).data_ = st0.data_ ∧
      (ConvLearner.save_fc1 st0).models = st0.models ∧
      (ConvLearner.save_fc1 st0).precompute = st0.precompute ∧
      (ConvLearner.save_fc1 st0).metrics = st0.metrics ∧
      (ConvLearner.save_fc1 st0).crit = st0.crit ∧
      (ConvLearner.save_fc1 st0).frozen_to = st0.frozen_to := by
  cases hdisk : st0.disk with
  | some l =>
    have hdisk2 : (st0.log Event.save_fc1_evt).disk = some l := hdisk
    have hga := get_activations_open (st0.log Event.save_fc1_evt) l hdisk2
    have ha : (ConvLearner.get_activations (st0.log Event.save_fc1_evt) false).activations
        = some l := by rw [hga]
    have hd : (ConvLearner.get_activations (st0.log Event.save_fc1_evt) false).disk
        = some l := by rw [hga]; exact hdisk2
    have hfill := save_fc1_fill_spec _ l ha hd
    refine ⟨l, Event.open_activations_evt, Or.inl rfl, ?_, ?_, ?_, ?_, ?_, ?_, ?_, ?_, ?_, ?_, ?_⟩
    · unfold stored_lens0
      rw [hga]
      try rfl
    · intro lens hl
      exact ⟨Option.some.inj hl, rfl⟩
    · show (save_fc1_fill (ConvLearner.get_activations (st0.log Event.save_fc1_evt) false)).trace = _
      rw [hfill, hga]
      try simp [LState.log]
    · show (save_fc1_fill (ConvLearner.get_activations (st0.log Event.save_fc1_evt) false)).activations = _
      rw [hfill, hga]
      try simp [LState.log]
    · show (save_fc1_fill (ConvLearner.get_activations (st0.log Event.save_fc1_evt) false)).disk
        = (save_fc1_fill (ConvLearner.get_activations (st0.log Event.save_fc1_evt) false)).activations
      rw [hfill]
    · show (save_fc1_fill (ConvLearner.get_activations (st0.log Event.save_fc1_evt) false)).data_ = _
      rw [hfill, hga]
      try simp [LState.log]
    · show (save_fc1_fill (ConvLearner.get_activations (st0.log Event.save_fc1_evt) false)).models = _
      rw [hfill, hga]
      try simp [LState.log]
    · show (save_fc1_fill (ConvLearner.get_activations (st0.log Event.save_fc1_evt) false)).precompute = _
      rw [hfill, hga]
      try simp [LState.log]
    · show (save_fc1_fill (ConvLearner.get_activations (st0.log Event.save_fc1_evt) false)).metrics = _
      rw [hfill, hga]
      try simp [LState.log]
    · show (save_fc1_fill (ConvLearner.get_activations (st0.log Event.save_fc1_evt) false)).crit = _
      rw [hfill, hga]
      try simp [LState.log]
    · show (save_fc1_fill (ConvLearner.get_activations (st0.log Event.save_fc1_evt) false)).frozen_to = _
      rw [hfill, hga]
      try simp [LState.log]
  | none =>
    have hdisk2 : (st0.log Event.save_fc1_evt).disk = none := hdisk
    have hga := get_activations_create (st0.log Event.save_fc1_evt) hdisk2
    have ha : (ConvLearner.get_activations (st0.log Event.save_fc1_evt) false).activations
        = some (0, 0, 0) := by rw [hga]
    have hd : (ConvLearner.get_activations (st0.log Event.save_fc1_evt) false).disk
        = some (0, 0, 0) := by rw [hga]
    have hfill := save_fc1_fill_spec _ (0, 0, 0) ha hd
    refine ⟨(0, 0, 0), Event.create_empty_bcolz_evt, Or.inr rfl, ?_, ?_, ?_, ?_, ?_, ?_, ?_, ?_, ?_, ?_, ?_⟩
    · unfold stored_lens0
      rw [hga]
      try rfl
    · intro lens hl
      exact absurd hl (by simp)
    · show (save_fc1_fill (ConvLearner.get_activations (st0.log Event.save_fc1_evt) false)).trace = _
      rw [hfill, hga]
      try simp [LState.log]
    · show (save_fc1_fill (ConvLearner.get_activations (st0.log Event.save_fc1_evt) false)).activations = _
      rw [hfill, hga]
      try simp [LState.log]
    · show (save_fc1_fill (ConvLearner.get_activations (st0.log Event.save_fc1_evt) false)).disk
        = (save_fc1_fill (ConvLearner.get_activations (st0.log Event.save_fc1_evt) false)).activations
      rw [hfill]
    · show (save_fc1_fill (ConvLearner.get_activations (st0.log Event.save_fc1_evt) false)).data_ = _
      rw [hfill, hga]
      try simp [LState.log]
    · show (save_fc1_fill (ConvLearner.get_activations (st0.log Event.save_fc1_evt) false)).models = _
      rw [hfill, hga]
      try simp [LState.log]
    · show (save_fc1_fill (ConvLearner.get_activations (st0.log Event.save_fc1_evt) false)).precompute = _
      rw [hfill, hga]
      try simp [LState.log]
    · show (save_fc1_fill (ConvLearner.get_activations (st0.log Event.save_fc1_evt) false)).metrics = _
      rw [hfill, hga]
      try simp [LState.log]
    · show (save_fc1_fill (ConvLearner.get_activations (st0.log Event.save_fc1_evt) false)).crit = _
      rw [hfill, hga]
      try simp [LState.log]
    · show (save_fc1_fill (ConvLearner.get_activations (st0.log Event.save_fc1_evt) false)).frozen_to = _
      rw [hfill, hga]
      try simp [LState.log]

/-- A predict event in the fill events means the stored length of that
split differed from the dataset length. -/
lemma fill_events_mem {L0 : Nat × Nat × Nat} {d : DataBundle} {s : Split}
    (h : Event.predict_to_bcolz_evt s ∈ fill_events L0 d) :
    split_stored s L0 ≠ split_ds_len s d := by
  unfold fill_events at h
  cases s <;> (split_ifs at h <;> simp_all [split_stored, split_ds_len])

/-- When the arrays already match the dataset (the test entry whenever a
test dataloader exists), the fill phase emits no events. -/
lemma fill_events_nil {d : DataBundle} {t : Nat}
    (h : d.has_test_dl = true → t = d.test_len) :
    fill_events (d.train_len, d.val_len, t) d = [] := by
  unfold fill_events
  by_cases hht : d.has_test_dl = true
  · simp [hht, h hht]
  · simp [hht]

/-- No freeze_to event is ever among the fill events. -/
lemma fill_events_no_freeze {L0 : Nat × Nat × Nat} {d : DataBundle} {n : Int} :
    Event.freeze_to_evt n ∉ fill_events L0 d := by
  unfold fill_events
  split_ifs <;> simp

lemma new_events_of_append {st st2 : LState} {es : List Event}
    (h : st2.trace = st.trace ++ es) : new_events st st2 = es := by
  unfold new_events
  rw [h, List.drop_left]

lemma contains_ev_append_self (e : Event) (l : List Event) :
    contains_ev e (l ++ [e]) = true := by
  induction l with
  | nil => simp [contains_ev]
  | cons x rest ih => simp [contains_ev, ih]

lemma freeze_eq (st : LState) :
    ConvLearner.freeze st =
      { st with frozen_to := some (-1),
                trace := st.trace ++ [Event.freeze_to_evt (-1)] } := rfl

lemma unfreeze_eq (st : LState) :
    ConvLearner.unfreeze st =
      { st with precompute := false, frozen_to := some 0,
                trace := st.trace ++ [Event.freeze_to_evt 0] } := rfl

/-- The criterion and metrics step leaves every other field unchanged. -/
lemma init_crit_metrics_frame (data : DataBundle) (st : LState) :
    (init_crit_metrics data st).data_ = st.data_ ∧
    (init_crit_metrics data st).models = st.models ∧
    (init_crit_metrics data st).precompute = st.precompute ∧
    (init_crit_metrics data st).frozen_to = st.frozen_to ∧
    (init_crit_metrics data st).disk = st.disk ∧
    (init_crit_metrics data st).activations = st.activations ∧
    (init_crit_metrics data st).fc_data = st.fc_data ∧
    (init_crit_metrics data st).trace = st.trace := by
  unfold init_crit_metrics
  split_ifs <;> exact ⟨rfl, rfl, rfl, rfl, rfl, rfl, rfl, rfl⟩

lemma init_crit_metrics_crit (data : DataBundle) (st : LState) :
    (init_crit_metrics data st).crit =
      if data.is_reg then LossFn.l1_loss else st.crit := by
  unfold init_crit_metrics
  split_ifs <;> rfl

lemma init_crit_metrics_metrics (data : DataBundle) (st : LState) :
    (init_crit_metrics data st).metrics =
      if data.is_reg = false ∧ st.metrics = none then
        some [if data.is_multi then Metric.accuracy_thresh (1/2) else Metric.accuracy]
      else st.metrics := by
  unfold init_crit_metrics
  split_ifs with h1 h2 h3 <;> simp_all

/-- Every learner has at least one layer group (the fc head). -/
lemma num_groups_pos (st : LState) : 1 ≤ ConvLearner.num_groups st := by
  unfold ConvLearner.num_groups ConvLearner.layer_groups ConvnetBuilder.get_layer_groups
  split <;> simp

/-! ## Claims about the learner -/

/-- C1: whenever the precompute flag is set, the model property is the fc
head alone, the data property is the cached-activation dataset fc_data, and
get_layer_groups is the one-element list holding only the fc head, so
training touches no backbone layer. -/
theorem C1_precompute_head_only (st : LState) (h : st.precompute = true) :
    ConvLearner.model st = st.models.fc_model ∧
    ConvLearner.dataProp st = st.fc_data.map DataView.fcView ∧
    (∀ fd, st.fc_data = some fd → ConvLearner.dataProp st = some (DataView.fcView fd)) ∧
    ConvLearner.layer_groups st = [LayerGroup.ofModule st.models.fc_model] := by
  refine ⟨?_, ?_, ?_, ?_⟩
  · simp [ConvLearner.model, h]
  · simp [ConvLearner.dataProp, h]
  · intro fd hfd
    simp [ConvLearner.dataProp, h, hfd]
  · simp [ConvLearner.layer_groups, ConvnetBuilder.get_layer_groups, h]

/-- C2: a second save_fc1 call recomputes nothing: its get_activations
reopens the on-disk arrays and no predict_to_bcolz runs; in general
get_activations reopens the arrays whenever the first file exists, and any
predict_to_bcolz run of a save_fc1 call is for a split whose stored array
length differed from the dataset length. -/
theorem C2_save_fc1_no_recomputation (st : LState) :
    (∀ s : Split, Event.predict_to_bcolz_evt s ∉
        new_events (ConvLearner.save_fc1 st)
          (ConvLearner.save_fc1 (ConvLearner.save_fc1 st))) ∧
    Event.open_activations_evt ∈
      new_events (ConvLearner.save_fc1 st)
        (ConvLearner.save_fc1 (ConvLearner.save_fc1 st)) ∧
    (∀ lens, st.disk = some lens →
      ConvLearner.get_activations st false =
        { st with activations := some lens,
                  trace := st.trace ++ [Event.open_activations_evt] }) ∧
    (∀ s : Split, Event.predict_to_bcolz_evt s ∈ new_events st (ConvLearner.save_fc1 st) →
      split_stored s (stored_lens0 st) ≠ split_ds_len s st.data_) := by
  obtain ⟨L0, g, hg, hL0, hlens, htr, hact, hdk, hdata, hmodels, hpc, hmet, hcrit, hfz⟩ :=
    save_fc1_spec st
  obtain ⟨L1, g1, hg1, hL01, hlens1, htr1, hact1, hdk1, hdata1, _, _, _, _, _⟩ :=
    save_fc1_spec (ConvLearner.save_fc1 st)
  have hdisk1 : (ConvLearner.save_fc1 st).disk =
      some (st.data_.train_len, st.data_.val_len,
        if st.data_.has_test_dl = true then st.data_.test_len else L0.2.2) := by
    rw [hdk, hact]
  obtain ⟨hL1eq, hg1eq⟩ := hlens1 _ hdisk1
  have hfnil : fill_events L1 (ConvLearner.save_fc1 st).data_ = [] := by
    rw [hL1eq, hdata]
    exact fill_events_nil (fun hht => by simp [hht])
  have htr2 : (ConvLearner.save_fc1 (ConvLearner.save_fc1 st)).trace =
      (ConvLearner.save_fc1 st).trace ++
        [Event.save_fc1_evt, Event.open_activations_evt] := by
    rw [htr1, hg1eq, hfnil, List.append_nil]
  have hnew : new_events (ConvLearner.save_fc1 st)
      (ConvLearner.save_fc1 (ConvLearner.save_fc1 st)) =
      [Event.save_fc1_evt, Event.open_activations_evt] := new_events_of_append htr2
  refine ⟨?_, ?_, ?_, ?_⟩
  · intro s
    rw [hnew]
    simp
  · rw [hnew]
    simp
  · intro lens hl
    exact get_activations_open st lens hl
  · intro s hs
    have hnew1 : new_events st (ConvLearner.save_fc1 st) =
        [Event.save_fc1_evt, g] ++ fill_events L0 st.data_ :=
      new_events_of_append (by rw [htr, List.append_assoc])
    rw [hnew1] at hs
    rcases List.mem_append.mp hs with h1 | h1
    · rcases hg with hg | hg <;> simp [hg] at h1
    · rw [hL0]
      exact fill_events_mem h1

/-- C3 counterexample: in a concrete construction with precompute on, the
freeze_to(-1) call of freeze() does not precede the save_fc1() call even
though both occur: the code runs save_fc1 first and freeze after. -/
theorem C3_counterexample_freeze_not_before_save :
    occurs_before (Event.freeze_to_evt (-1)) Event.save_fc1_evt exState.trace = false ∧
    contains_ev (Event.freeze_to_evt (-1)) exState.trace = true ∧
    contains_ev Event.save_fc1_evt exState.trace = true := by decide

/-- C3 (amended): in every construction with precompute=True the
orchestrator triggers the activation caching first and freezes afterwards:
save_fc1() is executed before freeze(). -/
theorem C3_save_fc1_precedes_freeze (d : DataBundle) (models : ConvnetBuilder)
    (m0 : Option (List Metric)) (disk0 : Option (Nat × Nat × Nat)) :
    occurs_before Event.save_fc1_evt (Event.freeze_to_evt (-1))
      (ConvLearner.init d models true m0 disk0).trace = true := by
  have hstm : (init_crit_metrics d (init_base d models m0 disk0)).trace = [] :=
    (init_crit_metrics_frame d (init_base d models m0 disk0)).2.2.2.2.2.2.2
  obtain ⟨L0, g, hg, hL0, hlens, htr, hact, hdk, hdata, hmodels, hpc, hmet, hcrit, hfz⟩ :=
    save_fc1_spec (init_crit_metrics d (init_base d models m0 disk0))
  have htrace : (ConvLearner.init d models true m0 disk0).trace =
      Event.save_fc1_evt ::
        ((g :: fill_events L0 (init_crit_metrics d (init_base d models m0 disk0)).data_)
          ++ [Event.freeze_to_evt (-1)]) := by
    have hfr : (ConvLearner.init d models true m0 disk0).trace =
        (ConvLearner.save_fc1 (init_crit_metrics d (init_base d models m0 disk0))).trace
          ++ [Event.freeze_to_evt (-1)] := rfl
    rw [hfr, htr, hstm]
    simp
  rw [htrace]
  simp only [occurs_before]
  rw [contains_ev_append_self]
  simp

/-- C4: unfreeze() calls freeze_to(0) making every layer group trainable
and clears the precompute flag, after which the model property is the full
backbone-plus-head model; freeze() calls freeze_to(-1), leaving exactly the
last group (the fc head) trainable. -/
theorem C4_freeze_unfreeze_transitions (st : LState) :
    (ConvLearner.unfreeze st).frozen_to = some 0 ∧
    (ConvLearner.unfreeze st).trace = st.trace ++ [Event.freeze_to_evt 0] ∧
    (ConvLearner.unfreeze st).precompute = false ∧
    (∀ i : Nat, ConvLearner.trainable (ConvLearner.unfreeze st) i = true) ∧
    ConvLearner.model (ConvLearner.unfreeze st) = st.models.model ∧
    (ConvLearner.freeze st).frozen_to = some (-1) ∧
    (ConvLearner.freeze st).trace = st.trace ++ [Event.freeze_to_evt (-1)] ∧
    (∀ i : Nat, i < ConvLearner.num_groups (ConvLearner.freeze st) →
      (ConvLearner.trainable (ConvLearner.freeze st) i = true ↔
        i = ConvLearner.num_groups (ConvLearner.freeze st) - 1)) := by
  refine ⟨rfl, rfl, rfl, ?_, rfl, rfl, rfl, ?_⟩
  · intro i
    simp [ConvLearner.trainable, unfreeze_eq, group_trainable]
  · intro i hi
    have hng := num_groups_pos (ConvLearner.freeze st)
    have hfz : (ConvLearner.freeze st).frozen_to = some (-1) := rfl
    simp only [ConvLearner.trainable, hfz, group_trainable]
    norm_num
    omega

/-- C6: the criterion is l1_loss for regression (overriding the
multi-label choice), binary_cross_entropy for multi-label, nll_loss
otherwise; and when no metrics were supplied and the task is not
regression, the default metrics are accuracy_thresh(0.5) for multi-label
and accuracy for single-label. -/
theorem C6_criterion_and_default_metrics (data : DataBundle) (models : ConvnetBuilder)
    (pc : Bool) (m0 : Option (List Metric)) (disk0 : Option (Nat × Nat × Nat)) :
    (ConvLearner.init data models pc m0 disk0).crit =
      (if data.is_reg then LossFn.l1_loss
       else if data.is_multi then LossFn.binary_cross_entropy else LossFn.nll_loss) ∧
    (m0 = none → data.is_reg = false →
      (ConvLearner.init data models pc m0 disk0).metrics =
        some [if data.is_multi then Metric.accuracy_thresh (1/2) else Metric.accuracy]) := by
  have hcrit0 : (ConvLearner.init data models pc m0 disk0).crit =
      (init_crit_metrics data (init_base data models m0 disk0)).crit := by
    show (if pc then ConvLearner.save_fc1 (init_crit_metrics data (init_base data models m0 disk0))
          else init_crit_metrics data (init_base data models m0 disk0)).crit = _
    cases pc
    · rfl
    · simp only [if_true]
      obtain ⟨_, _, _, _, _, _, _, _, _, _, _, _, hcrit, _⟩ :=
        save_fc1_spec (init_crit_metrics data (init_base data models m0 disk0))
      exact hcrit
  have hmet0 : (ConvLearner.init data models pc m0 disk0).metrics =
      (init_crit_metrics data (init_base data models m0 disk0)).metrics := by
    show (if pc then ConvLearner.save_fc1 (init_crit_metrics data (init_base data models m0 disk0))
          else init_crit_metrics data (init_base data models m0 disk0)).metrics = _
    cases pc
    · rfl
    · simp only [if_true]
      obtain ⟨_, _, _, _, _, _, _, _, _, _, _, hmet, _, _⟩ :=
        save_fc1_spec (init_crit_metrics data (init_base data models m0 disk0))
      exact hmet
  constructor
  · rw [hcrit0, init_crit_metrics_crit]
    have hb : (init_base data models m0 disk0).crit =
        if data.is_multi then LossFn.binary_cross_entropy else LossFn.nll_loss := rfl
    rw [hb]
  · intro hm0 hreg
    rw [hmet0, init_crit_metrics_metrics]
    have hb : (init_base data models m0 disk0).metrics = m0 := rfl
    rw [hb, hm0, hreg]
    simp

/-- C9: summary() stashes the precompute flag, summarizes the full model
with the flag cleared, and restores the flag, so the flag after the call
equals its value before for every prior value. -/
theorem C9_summary_restores_precompute (st : LState) :
    ((ConvLearner.summary st).2).precompute = st.precompute ∧
    (ConvLearner.summary st).1 = st.models.model :=
  ⟨rfl, rfl⟩

/-! ## Witnesses -/

/-- C1 witness: the concrete precompute learner exState. -/
theorem C1_precompute_head_only_witness :
    exState.precompute = true ∧
    ConvLearner.model exState = exState.models.fc_model ∧
    ConvLearner.layer_groups exState = [LayerGroup.ofModule exState.models.fc_model] :=
  ⟨rfl, (C1_precompute_head_only exState rfl).1,
    (C1_precompute_head_only exState rfl).2.2.2⟩

/-- C2 witness: the concrete learner exState2 over stale arrays of length
5 against datasets of length 1. -/
theorem C2_save_fc1_no_recomputation_witness :
    Event.predict_to_bcolz_evt Split.train ∉
      new_events (ConvLearner.save_fc1 exState2)
        (ConvLearner.save_fc1 (ConvLearner.save_fc1 exState2)) ∧
    ConvLearner.get_activations exState2 false =
      { exState2 with activations := some (5, 5, 0),
                      trace := exState2.trace ++ [Event.open_activations_evt] } ∧
    split_stored Split.train (stored_lens0 exState2) ≠
      split_ds_len Split.train exState2.data_ :=
  ⟨(C2_save_fc1_no_recomputation exState2).1 Split.train,
   (C2_save_fc1_no_recomputation exState2).2.2.1 (5, 5, 0) rfl,
   (C2_save_fc1_no_recomputation exState2).2.2.2 Split.train (by decide)⟩

/-- C4 witness: the concrete learner exState. -/
theorem C4_freeze_unfreeze_transitions_witness :
    (ConvLearner.unfreeze exState).frozen_to = some 0 ∧
    (ConvLearner.unfreeze exState).precompute = false ∧
    ConvLearner.trainable (ConvLearner.unfreeze exState) 0 = true ∧
    ConvLearner.model (ConvLearner.unfreeze exState) = exState.models.model ∧
    (ConvLearner.freeze exState).frozen_to = some (-1) ∧
    (ConvLearner.trainable (ConvLearner.freeze exState) 0 = true ↔
      0 = ConvLearner.num_groups (ConvLearner.freeze exState) - 1) :=
  ⟨(C4_freeze_unfreeze_transitions exState).1,
   (C4_freeze_unfreeze_transitions exState).2.2.1,
   (C4_freeze_unfreeze_transitions exState).2.2.2.1 0,
   (C4_freeze_unfreeze_transitions exState).2.2.2.2.1,
   (C4_freeze_unfreeze_transitions exState).2.2.2.2.2.1,
   (C4_freeze_unfreeze_transitions exState).2.2.2.2.2.2.2 0 (by decide)⟩

/-- C5 witness: the concrete single-label non-regression builder exB ends
its head in LogSoftmax. -/
theorem C5_final_activation_by_task_witness :
    (children exB.fc_model).getLast? = some NNModule.logSoftmax := by
  have hmk : ConvnetBuilder.make (ArchId.other 0) exBackbone 4 3 false false none none 0
      = some exB := rfl
  exact (C5_final_activation_by_task (ArchId.other 0) exBackbone 4 3 false false
    none none 0 exB hmk).2.2 rfl rfl

/-- C6 witness: single-label non-regression data with no metrics supplied
gets nll_loss and the accuracy default. -/
theorem C6_criterion_and_default_metrics_witness :
    (ConvLearner.init exData exB false none none).crit = LossFn.nll_loss ∧
    (ConvLearner.init exData exB false none none).metrics = some [Metric.accuracy] :=
  ⟨((C6_criterion_and_default_metrics exData exB false none none).1).trans rfl,
   ((C6_criterion_and_default_metrics exData exB false none none).2 rfl rfl).trans rfl⟩

/-- C7 witness: the resnet18 builder exB3 is cut at 8 with lr_cut 6. -/
theorem C7_cut_point_and_adapter_witness :
    exB3.lr_cut = 6 ∧
    exB3.top_model = NNModule.seq (cut_model exBackbone (8 - ((0 : Nat) : Int)) ++
      [NNModule.adaptiveConcatPool2d, NNModule.flatten]) := by
  have hmk : ConvnetBuilder.make ArchId.resnet18 exBackbone 4 5 false false none none 0
      = some exB3 := rfl
  exact (C7_cut_point_and_adapter ArchId.resnet18 exBackbone 4 5 false false
    none none 0 exB3 hmk).1 8 6 rfl

/-- C8 witness: the concrete builder exB. -/
theorem C8_layer_groups_shape_witness :
    ConvnetBuilder.get_layer_groups exB false ≠ [] ∧
    (ConvnetBuilder.get_layer_groups exB false).getLast? =
      some (LayerGroup.ofModule exB.fc_model) :=
  ⟨(C8_layer_groups_shape exB).2.1, (C8_layer_groups_shape exB).2.2⟩

/-- C9 witness: the concrete learner exState keeps precompute = true
across summary(). -/
theorem C9_summary_restores_precompute_witness :
    ((ConvLearner.summary exState).2).precompute = exState.precompute ∧
    (ConvLearner.summary exState).1 = exState.models.model :=
  C9_summary_restores_precompute exState

/-- C10 witness: the single-number builder exB2 replicates 1/4, and a
block with probability 1/4 holds a Dropout layer. -/
theorem C10_dropout_replication_witness :
    exB2.dropout_percs = List.replicate (exB2.xtra_fc.length + 1) (1/4) ∧
    (NNModule.dropout (1/4) ∈ create_fc_layer 8 3 (1/4) none ↔ (1/4 : ℚ) ≠ 0) := by
  have hmk : ConvnetBuilder.make (ArchId.other 1) (NNModule.ext 0 []) 4 3 false false
      (some (DropArg.single (1/4))) none 0 = some exB2 := rfl
  have h := C10_dropout_replication (ArchId.other 1) (NNModule.ext 0 []) 4 3 false false
    (1/4) none 0 exB2 hmk
  exact ⟨h.1, (h.2.2 8 3 (1/4) none (Or.inl rfl)).2.2⟩

end FastaiConv
